import Mathlib

/-! Shallow embedding of `rigel_local_simulation_plugin/plugin.py`.

The embedding translates the requirement data model, the per-message
condition-matching handler of `ROSBridgeClient`, the aggregation functions of
`Plugin`, the monitoring-loop branch selection of `Plugin.run`, and the
infrastructure bring-up/teardown control flow.  Python runtime behaviour that
the source relies on is made explicit: dictionary lookup failure raises
`KeyError`, ordered comparison between an `int` and a `str` raises
`TypeError`, `==` between values of different types is `False`, truthiness of
an `Optional[str]` is false for both `None` and `""`, and an uncaught
exception aborts the enclosing loop or call chain.
-/

namespace RigelSim

/-- The `ConditionEnum` of plugin.py (lines 13-20).  Note the source's member
names: `GREATER_THAN` is evaluated as `>=` and `LESSER_THAN` as `<=` by the
message handler. -/
inductive ConditionEnum
| DIFFERENT
| EQUALS
| GREATER
| GREATER_THAN
| LESSER
| LESSER_THAN
| RECEIVED
deriving DecidableEq

/-- A scalar Python value carried in a decoded message or declared in a
requirement: an `int` or a `str`. -/
inductive PyValue
| int (n : Int)
| str (s : String)
deriving DecidableEq

/-- Exceptions the embedded code can raise: `KeyError` from a missing
dictionary key, `TypeError` from an unordered comparison, `RigelError` from
the pydantic validator, and a docker-client failure. -/
inductive PyError
| keyError
| typeError
| rigelError
| dockerError
deriving DecidableEq

/-- Python `==` on our value types: same-type comparison, `False` across
types (no exception). -/
def pyEq : PyValue → PyValue → Bool
| PyValue.int a, PyValue.int b => a == b
| PyValue.str a, PyValue.str b => a == b
| _, _ => false

/-- Python `<`: numeric on ints, lexicographic on strings, `TypeError`
across types. -/
def pyLt : PyValue → PyValue → Except PyError Bool
| PyValue.int a, PyValue.int b => Except.ok (decide (a < b))
| PyValue.str a, PyValue.str b => Except.ok (decide (a < b))
| _, _ => Except.error PyError.typeError

/-- Python `<=`: numeric on ints, lexicographic on strings, `TypeError`
across types. -/
def pyLe : PyValue → PyValue → Except PyError Bool
| PyValue.int a, PyValue.int b => Except.ok (decide (a ≤ b))
| PyValue.str a, PyValue.str b => Except.ok (!(decide (b < a)))
| _, _ => Except.error PyError.typeError

/-- Python `>`, i.e. the reflected `<`. -/
def pyGt (a b : PyValue) : Except PyError Bool := pyLt b a

/-- Python `>=`, i.e. the reflected `<=`. -/
def pyGe (a b : PyValue) : Except PyError Bool := pyLe b a

/-- The `SimulationRequirement` pydantic model (plugin.py lines 23-39),
after successful validation. -/
structure SimulationRequirement where
  condition : ConditionEnum
  message : String
  topic : String
  value : PyValue
  breakpoint : Bool := false
  field : Option String := none
deriving DecidableEq

/-- The `validate_date` validator on `field` (plugin.py lines 35-39): raise
`RigelError` when the field is `None` and the condition is not in
`[ConditionEnum.RECEIVED]`; otherwise return the field unchanged. -/
def validateField (value : Option String) (condition : ConditionEnum) :
    Except PyError (Option String) :=
  if value = none ∧ ¬ ([ConditionEnum.RECEIVED].contains condition) then
    Except.error PyError.rigelError
  else
    Except.ok value

/-- Construction of a `SimulationRequirement`: pydantic runs the `field`
validator; on success the model carries the validated field. -/
def mkSimulationRequirement (condition : ConditionEnum) (message topic : String)
    (value : PyValue) (breakpoint : Bool) (field : Option String) :
    Except PyError SimulationRequirement :=
  match validateField field condition with
  | Except.error e => Except.error e
  | Except.ok f =>
      Except.ok { condition := condition, message := message, topic := topic,
                  value := value, breakpoint := breakpoint, field := f }

/-- The `RequirementStatus` model (plugin.py lines 77-96).  The roslibpy
listener handle is modelled by its observable state: whether the
subscription is still active. -/
structure RequirementStatus where
  requirement : SimulationRequirement
  calls : Int := 0
  satisfied : Bool := false
  subscribed : Bool := true
deriving DecidableEq

/-- A decoded message payload: a string-keyed dictionary of scalar values. -/
abbrev Message := List (String × PyValue)

/-- Python dictionary lookup `d[k]` on a decoded message. -/
def dictGet (msg : Message) (k : String) : Option PyValue :=
  match msg with
  | [] => none
  | (k2, v) :: rest => if k2 = k then some v else dictGet rest k

/-- Lookup `message[requirement.field]`: a missing key raises `KeyError`; indexing
with a `None` field also raises (a decoded payload has only string keys). -/
def getField (msg : Message) : Option String → Except PyError PyValue
| none => Except.error PyError.keyError
| some f =>
    match dictGet msg f with
    | some v => Except.ok v
    | none => Except.error PyError.keyError

/-- The condition-evaluation block of `ROSBridgeClient.__message_handler`
(plugin.py lines 163-182): one branch per `ConditionEnum` member, comparing
the extracted field value (or, for `RECEIVED`, the updated call counter)
against the declared value. -/
def evaluateCondition (req : SimulationRequirement) (calls : Int)
    (msg : Message) : Except PyError Bool :=
  match req.condition with
  | ConditionEnum.DIFFERENT =>
      (getField msg req.field).map (fun v => !(pyEq v req.value))
  | ConditionEnum.EQUALS =>
      (getField msg req.field).map (fun v => pyEq v req.value)
  | ConditionEnum.GREATER =>
      (getField msg req.field).bind (fun v => pyGt v req.value)
  | ConditionEnum.GREATER_THAN =>
      (getField msg req.field).bind (fun v => pyGe v req.value)
  | ConditionEnum.LESSER =>
      (getField msg req.field).bind (fun v => pyLt v req.value)
  | ConditionEnum.LESSER_THAN =>
      (getField msg req.field).bind (fun v => pyLe v req.value)
  | ConditionEnum.RECEIVED =>
      Except.ok (pyEq (PyValue.int calls) req.value)

/-- Handler `ROSBridgeClient.__message_handler` (plugin.py lines 157-185): increment
`calls`, evaluate the condition branch and overwrite `satisfied` with its
result, then unsubscribe when satisfied.  An exception raised while
evaluating (missing key, unordered comparison) escapes the handler after the
`calls` increment, leaving `satisfied` untouched; the second component
reports the escaped exception. -/
def messageHandler (st : RequirementStatus) (msg : Message) :
    RequirementStatus × Option PyError :=
  let st1 := { st with calls := st.calls + 1 }
  match evaluateCondition st1.requirement st1.calls msg with
  | Except.error e => (st1, some e)
  | Except.ok b =>
      let st2 := { st1 with satisfied := b }
      if st2.satisfied then ({ st2 with subscribed := false }, none)
      else (st2, none)

/-- Deliver a sequence of messages to one status through the handler,
ignoring escaped exceptions between deliveries (each delivery happens in its
own callback). -/
def deliverAll (st : RequirementStatus) (msgs : List Message) :
    RequirementStatus :=
  msgs.foldl (fun s m => (messageHandler s m).1) st

/-- Source `ROSBridgeClient.requirements_satisfied` (plugin.py lines 108-112):
false as soon as one status in the list the instance reads is unsatisfied,
true otherwise.  The loop does not look at the `breakpoint` flag. -/
def clientRequirementsSatisfied (status : List RequirementStatus) : Bool :=
  status.all (fun s => s.satisfied)

/-- Source `ROSBridgeClient.breakpoint_satisfied` (plugin.py lines 114-118): true
when some status is both flagged as a breakpoint and satisfied. -/
def clientBreakpointSatisfied (status : List RequirementStatus) : Bool :=
  status.any (fun s => s.requirement.breakpoint && s.satisfied)

/-- Render a `PyValue` the way `"{}".format(value)` does. -/
def pyStr : PyValue → String
| PyValue.int n => toString n
| PyValue.str s => s

/-- Render a `ConditionEnum` member the way `"{}".format(condition)` renders
the `str`-mixin enum: its string value. -/
def conditionStr : ConditionEnum → String
| ConditionEnum.DIFFERENT => "DIFFERENT"
| ConditionEnum.EQUALS => "EQUALS"
| ConditionEnum.GREATER => "GREATER"
| ConditionEnum.GREATER_THAN => "GREATER_THAN"
| ConditionEnum.LESSER => "LESSER"
| ConditionEnum.LESSER_THAN => "LESSER_THAN"
| ConditionEnum.RECEIVED => "RECEIVED"

/-- Python truthiness of the `Optional[str]` field: `None` and the empty
string are falsy. -/
def fieldTruthy : Option String → Bool
| none => false
| some s => !(s == "")

/-- One entry of `ROSBridgeClient.get_requirements` (plugin.py lines
124-140): the satisfied flag paired with the formatted description.  The
guard is the Python truthiness test `if requirement_status.requirement.field`. -/
def describeStatus (s : RequirementStatus) : Bool × String :=
  let r := s.requirement
  if fieldTruthy r.field then
    (s.satisfied,
      r.topic ++ " (" ++ r.message ++ ") - " ++ r.field.getD "" ++ " " ++
        conditionStr r.condition ++ " " ++ pyStr r.value)
  else
    (s.satisfied,
      r.topic ++ " (" ++ r.message ++ ") - " ++
        conditionStr r.condition ++ " " ++ pyStr r.value)

/-- Source `ROSBridgeClient.get_requirements` (plugin.py lines 120-147): walk the
status list in order, appending each description to the breakpoint list when
the requirement is flagged as a breakpoint and to the plain requirement list
otherwise. -/
def clientGetRequirements : List RequirementStatus →
    List (Bool × String) × List (Bool × String)
| [] => ([], [])
| s :: rest =>
    let m := describeStatus s
    let p := clientGetRequirements rest
    if s.requirement.breakpoint then (p.1, m :: p.2) else (m :: p.1, p.2)

/-- Source `Plugin.requirements_satisfied` (plugin.py lines 285-298): false when
the client list is empty, otherwise every client's own check must pass.
Each client is represented by the status list its `self.status` read
yields. -/
def pluginRequirementsSatisfied (clients : List (List RequirementStatus)) :
    Bool :=
  if clients.isEmpty then false
  else clients.all clientRequirementsSatisfied

/-- Source `Plugin.breakpoint_satisfied` (plugin.py lines 300-313): false when the
client list is empty, otherwise true as soon as one client reports a
satisfied breakpoint. -/
def pluginBreakpointSatisfied (clients : List (List RequirementStatus)) :
    Bool :=
  if clients.isEmpty then false
  else clients.any clientBreakpointSatisfied

/-- Source `Plugin.get_requirements` (plugin.py lines 315-330): concatenate the
per-client requirement and breakpoint lists in client order. -/
def pluginGetRequirements : List (List RequirementStatus) →
    List (Bool × String) × List (Bool × String)
| [] => ([], [])
| c :: rest =>
    let p := clientGetRequirements c
    let q := pluginGetRequirements rest
    (p.1 ++ q.1, p.2 ++ q.2)

/-- One printed report line of `Plugin.run` (plugin.py lines 391 and 397). -/
def formatLine (m : Bool × String) : String :=
  " - " ++ m.2 ++ "\t...\t" ++ (if m.1 then "SUCCESS" else "FAILURE")

/-- The report printed at the end of `Plugin.run` (plugin.py lines 386-398)
as the list of printed lines: each section is printed only when its message
list is non-empty, header first, then one line per entry, then a blank
line. -/
def pluginReport (clients : List (List RequirementStatus)) : List String :=
  let p := pluginGetRequirements clients
  (if p.1.isEmpty then []
   else "REQUIREMENTS:" :: (p.1.map formatLine ++ [""])) ++
  (if p.2.isEmpty then []
   else "BREAKPOINTS:" :: (p.2.map formatLine ++ [""]))

/-- Outcome of the monitoring loop in `Plugin.run`, one constructor per
`break` branch. -/
inductive SimulationOutcome
| TIMED_OUT
| BREAKPOINT_HIT
| ALL_SATISFIED
deriving DecidableEq

/-- One iteration of the monitoring loop of `Plugin.run` (plugin.py lines
372-382): the `elif` chain checks timeout first, then a satisfied
breakpoint, then full satisfaction; `none` means the loop keeps spinning. -/
def loopIteration (passedTime timeout : ℚ)
    (clients : List (List RequirementStatus)) : Option SimulationOutcome :=
  if passedTime > timeout then some SimulationOutcome.TIMED_OUT
  else if pluginBreakpointSatisfied clients then
    some SimulationOutcome.BREAKPOINT_HIT
  else if pluginRequirementsSatisfied clients then
    some SimulationOutcome.ALL_SATISFIED
  else none

/-! Aliasing note: `ROSBridgeClient` declares `status: List[RequirementStatus] = []` at class
level (plugin.py line 102) and never rebinds it per instance in `__init__`
(lines 104-106): the list is a single class attribute, and
`self.status.append(...)` in `add_requirement` (line 155) mutates that
shared list.  The runtime state is therefore the one class-level list; an
instance is identified by an index and every instance's `self.status` read
resolves to the class attribute.
-/

/-- The runtime state of the `ROSBridgeClient` class: the single class-level
`status` list shared by all instances. -/
structure ROSBridgeClassState where
  classStatus : List RequirementStatus
deriving DecidableEq

/-- What `self.status` evaluates to on the instance with the given index:
the attribute lookup finds no instance attribute and falls back to the class
attribute, whatever the instance. -/
def statusOf (w : ROSBridgeClassState) (_instanceIdx : Nat) :
    List RequirementStatus :=
  w.classStatus

/-- Source `ROSBridgeClient.add_requirement` (plugin.py lines 149-155) called on
the instance with the given index: build a `RequirementStatus`, subscribe
its listener, and append it to `self.status` — which is the shared class
attribute. -/
def addRequirement (w : ROSBridgeClassState) (_instanceIdx : Nat)
    (r : SimulationRequirement) : ROSBridgeClassState :=
  { w with classStatus := w.classStatus ++
      [{ requirement := r, calls := 0, satisfied := false, subscribed := true }] }

/-- Observable effects of bring-up and teardown. -/
inductive TeardownEvent
| removedContainer (name : String)
| removedNetwork
deriving DecidableEq

/-- The container-removal loop of
`Plugin.destroy_simulation_infrastructure` (plugin.py lines 355-357): remove
each package's container in order; the loop body has no exception handler,
so a failing removal aborts the loop and the exception propagates.  Returns
the removal events that happened and the escaped exception, if any. -/
def removeContainers (removeFails : String → Bool) :
    List String → List TeardownEvent × Option PyError
| [] => ([], none)
| p :: rest =>
    if removeFails p then ([], some PyError.dockerError)
    else
      let q := removeContainers removeFails rest
      (TeardownEvent.removedContainer p :: q.1, q.2)

/-- Source `Plugin.destroy_simulation_infrastructure` (plugin.py lines 350-361):
remove every package's container, then remove the simulation network.  An
exception escaping the removal loop skips the network removal and
propagates. -/
def destroySimulationInfrastructure (removeFails : String → Bool)
    (packages : List String) : List TeardownEvent × Option PyError :=
  let q := removeContainers removeFails packages
  match q.2 with
  | some e => (q.1, some e)
  | none => (q.1 ++ [TeardownEvent.removedNetwork], none)

/-- The container-start loop of `Plugin.bringup_ros_nodes` (plugin.py lines
259-283): start each package's container in order; a failing start raises,
aborting the loop.  Returns the names started and the escaped exception, if
any. -/
def bringupNodes (startFails : String → Bool) :
    List String → List String × Option PyError
| [] => ([], none)
| p :: rest =>
    if startFails p then ([], some PyError.dockerError)
    else
      let q := bringupNodes startFails rest
      (p :: q.1, q.2)

/-- The teardown reached by `Plugin.run` (plugin.py lines 363-404):
`bringup_simulation_infrastructure` prepends the synthesized `master`
package and starts the containers; `run` has no exception handler around it,
so a start failure propagates out of `run` before `self.stop()` is ever
called and no teardown event happens.  When bring-up succeeds, the
monitoring loop always terminates into `self.stop()`, which runs
`destroy_simulation_infrastructure` on the package list (master included). -/
def runTeardown (startFails removeFails : String → Bool)
    (packages : List String) : List TeardownEvent × Option PyError :=
  let pkgs := "master" :: packages
  let b := bringupNodes startFails pkgs
  match b.2 with
  | some e => ([], some e)
  | none => destroySimulationInfrastructure removeFails pkgs

/-! Spec-side definitions, written from the specification's words, to be
compared with the definitions translated from the source. -/

/-- Spec-side `allSatisfied`, following the spec's words: true iff at least
one bridge connection exists and every non-breakpoint status across all
connections is satisfied. -/
def specAllSatisfied (clients : List (List RequirementStatus)) : Bool :=
  !clients.isEmpty &&
    clients.all (fun c => c.all (fun s => s.requirement.breakpoint || s.satisfied))

/-- The claim's rendering rule for one status, following its words: the
with-field form exactly when the requirement has a field (i.e. the field is
not `None`). -/
def claimDescribe (s : RequirementStatus) : Bool × String :=
  let r := s.requirement
  if r.field ≠ none then
    (s.satisfied,
      r.topic ++ " (" ++ r.message ++ ") - " ++ r.field.getD "" ++ " " ++
        conditionStr r.condition ++ " " ++ pyStr r.value)
  else
    (s.satisfied,
      r.topic ++ " (" ++ r.message ++ ") - " ++
        conditionStr r.condition ++ " " ++ pyStr r.value)

/-- Spec-side rendering rule as amended: the with-field form exactly when
the requirement's field is present and non-empty. -/
def specDescribe (s : RequirementStatus) : Bool × String :=
  let r := s.requirement
  if fieldTruthy r.field then
    (s.satisfied,
      r.topic ++ " (" ++ r.message ++ ") - " ++ r.field.getD "" ++ " " ++
        conditionStr r.condition ++ " " ++ pyStr r.value)
  else
    (s.satisfied,
      r.topic ++ " (" ++ r.message ++ ") - " ++
        conditionStr r.condition ++ " " ++ pyStr r.value)

/-- Spec-side report content: flatten all connections' statuses in
registration order and split them into the non-breakpoint sequence and the
breakpoint sequence, each entry rendered by the (amended) rule. -/
def specRequirementLists (clients : List (List RequirementStatus)) :
    List (Bool × String) × List (Bool × String) :=
  ((clients.flatten.filter (fun s => !s.requirement.breakpoint)).map specDescribe,
   (clients.flatten.filter (fun s => s.requirement.breakpoint)).map specDescribe)

/-- Spec-side report text: the `REQUIREMENTS:` and `BREAKPOINTS:` sections,
each omitted entirely when its list is empty. -/
def specReport (clients : List (List RequirementStatus)) : List String :=
  let p := specRequirementLists clients
  (if p.1 = [] then []
   else "REQUIREMENTS:" :: (p.1.map formatLine ++ [""])) ++
  (if p.2 = [] then []
   else "BREAKPOINTS:" :: (p.2.map formatLine ++ [""]))

/-! Concrete fixtures used by counterexamples and witnesses. -/

/-- A breakpoint-flagged requirement on an integer field. -/
def c1BreakpointReq : SimulationRequirement :=
  { condition := ConditionEnum.EQUALS, message := "std_msgs/Int32",
    topic := "/collision", value := PyValue.int 1, breakpoint := true,
    field := some "data" }

/-- One connection whose only status is an unsatisfied breakpoint. -/
def c1Clients : List (List RequirementStatus) :=
  [[{ requirement := c1BreakpointReq, calls := 0, satisfied := false,
      subscribed := true }]]

/-- An `EQUALS` requirement on field `f` with declared value `1`. -/
def c2Req : SimulationRequirement :=
  { condition := ConditionEnum.EQUALS, message := "std_msgs/Int32",
    topic := "/state", value := PyValue.int 1, breakpoint := false,
    field := some "f" }

/-- The fresh status for `c2Req`. -/
def c2Status : RequirementStatus :=
  { requirement := c2Req, calls := 0, satisfied := false, subscribed := true }

/-- A requirement with the given condition on field `f` against the declared
integer `b`, used to state the condition table. -/
def c4Req (c : ConditionEnum) (b : Int) : SimulationRequirement :=
  { condition := c, message := "std_msgs/Int32", topic := "/data",
    value := PyValue.int b, breakpoint := false, field := some "f" }

/-- A payload carrying the integer `a` under key `f`. -/
def c4Msg (a : Int) : Message := [("f", PyValue.int a)]

/-- A `RECEIVED` requirement usable without a field. -/
def c3Req : SimulationRequirement :=
  { condition := ConditionEnum.RECEIVED, message := "std_msgs/Int32",
    topic := "/count", value := PyValue.int 1, breakpoint := false,
    field := none }

/-- The class state before any requirement is registered. -/
def c3World : ROSBridgeClassState := { classStatus := [] }

/-- A client set containing one satisfied breakpoint status, for the
monitoring-loop witness. -/
def c5BpClients : List (List RequirementStatus) :=
  [[{ requirement := c1BreakpointReq, calls := 1, satisfied := true,
      subscribed := false }]]

/-- A client set with a single satisfied ordinary requirement, for the
monitoring-loop witness. -/
def c5AllClients : List (List RequirementStatus) :=
  [[{ requirement := c2Req, calls := 1, satisfied := true,
      subscribed := false }]]

/-- A fresh status for an `EQUALS` requirement, used to exercise a missing
field key. -/
def c6Status : RequirementStatus :=
  { requirement := c2Req, calls := 0, satisfied := false, subscribed := true }

/-- A `GREATER` requirement whose declared value is an int, used to exercise
an unordered comparison against a string payload. -/
def c6GreaterStatus : RequirementStatus :=
  { requirement :=
      { condition := ConditionEnum.GREATER, message := "std_msgs/Int32",
        topic := "/speed", value := PyValue.int 1, breakpoint := false,
        field := some "f" },
    calls := 0, satisfied := false, subscribed := true }

/-- A removal-failure environment in which removing `master` fails. -/
def c7RemoveFailsMaster : String → Bool := fun p => p == "master"

/-- A start-failure environment in which starting container `b` fails. -/
def c7StartFailsB : String → Bool := fun p => p == "b"

/-- An environment in which nothing fails. -/
def c7NoFail : String → Bool := fun _ => false

/-- The requirement successfully constructed with condition `RECEIVED` and a
field present, violating the claimed `iff` invariant. -/
def c8Req : SimulationRequirement :=
  { condition := ConditionEnum.RECEIVED, message := "std_msgs/Int32",
    topic := "/count", value := PyValue.int 3, breakpoint := false,
    field := some "x" }

/-- A status whose requirement carries the empty-string field, which Python
truthiness treats as absent. -/
def c10Status : RequirementStatus :=
  { requirement :=
      { condition := ConditionEnum.EQUALS, message := "m", topic := "t",
        value := PyValue.int 1, breakpoint := false, field := some "" },
    calls := 0, satisfied := false, subscribed := true }

/-! Theorems settling the claims. -/

/-- C1 (counterexample): the claimed `allSatisfied` semantics — true whenever
some connection exists and every non-breakpoint status is satisfied — differs
from the code on a run with one connection holding a single unsatisfied
breakpoint status: the spec-side predicate is true there while
`Plugin.requirements_satisfied` returns false, because its loop also requires
breakpoint statuses to be satisfied. -/
theorem C1_allSatisfied_counterexample :
    specAllSatisfied c1Clients = true ∧
    pluginRequirementsSatisfied c1Clients = false := by decide

/-- C1 (amended): `Plugin.requirements_satisfied` returns true iff at least
one bridge connection exists and every `RequirementStatus` across all
connections — breakpoint-flagged ones included — is satisfied; in particular
it returns false on an empty connection list. -/
theorem C1_allSatisfied_amended (clients : List (List RequirementStatus)) :
    pluginRequirementsSatisfied clients = true ↔
      clients ≠ [] ∧ ∀ c ∈ clients, ∀ s ∈ c, s.satisfied = true := by
  cases clients with
  | nil => simp [pluginRequirementsSatisfied]
  | cons c rest =>
      simp [pluginRequirementsSatisfied, clientRequirementsSatisfied,
        List.all_eq_true]

/-- C9 (confirmed): `Plugin.breakpoint_satisfied` returns true iff at least
one bridge connection exists and some status whose requirement is flagged as
a breakpoint is satisfied; consequently it is false whenever no
breakpoint-flagged status is satisfied, regardless of the non-breakpoint
statuses. -/
theorem C9_breakpointSatisfied_iff (clients : List (List RequirementStatus)) :
    pluginBreakpointSatisfied clients = true ↔
      clients ≠ [] ∧ ∃ c ∈ clients, ∃ s ∈ c,
        s.requirement.breakpoint = true ∧ s.satisfied = true := by
  cases clients with
  | nil => simp [pluginBreakpointSatisfied]
  | cons c rest =>
      simp [pluginBreakpointSatisfied, clientBreakpointSatisfied,
        List.any_eq_true, Bool.and_eq_true]

/-- C4 (confirmed): the condition-evaluation block is the claimed pure
function of (condition, extracted value, declared value, call count): with
integer payloads, `DIFFERENT` is `≠`, `EQUALS` is `=`, `GREATER` is `>`,
the source's `GREATER_THAN` (the spec's GREATER_OR_EQUAL) is `≥`, `LESSER`
is `<`, the source's `LESSER_THAN` (the spec's LESSER_OR_EQUAL) is `≤`, and
the source's `RECEIVED` (the spec's RECEIVED_COUNT) compares the call count
to the declared value exactly, ignoring the payload. -/
theorem C4_conditionEvaluation (a b k : Int) :
    evaluateCondition (c4Req ConditionEnum.DIFFERENT b) k (c4Msg a) =
      Except.ok (decide (a ≠ b)) ∧
    evaluateCondition (c4Req ConditionEnum.EQUALS b) k (c4Msg a) =
      Except.ok (decide (a = b)) ∧
    evaluateCondition (c4Req ConditionEnum.GREATER b) k (c4Msg a) =
      Except.ok (decide (a > b)) ∧
    evaluateCondition (c4Req ConditionEnum.GREATER_THAN b) k (c4Msg a) =
      Except.ok (decide (a ≥ b)) ∧
    evaluateCondition (c4Req ConditionEnum.LESSER b) k (c4Msg a) =
      Except.ok (decide (a < b)) ∧
    evaluateCondition (c4Req ConditionEnum.LESSER_THAN b) k (c4Msg a) =
      Except.ok (decide (a ≤ b)) ∧
    evaluateCondition (c4Req ConditionEnum.RECEIVED b) k (c4Msg a) =
      Except.ok (decide (k = b)) := by
  refine ⟨?_, ?_, ?_, ?_, ?_, ?_, ?_⟩ <;>
    simp [evaluateCondition, c4Req, c4Msg, getField, dictGet, pyEq, pyGt,
      pyGe, pyLt, pyLe, Except.map, Except.bind, ge_iff_le, gt_iff_lt,
      Int.lt_iff_add_one_le] <;>
    rfl

/-- C2 (counterexample): satisfaction is not monotone in the handler: the
`EQUALS` requirement on field `f` with declared value `1` becomes satisfied
on `{f: 1}`, and a further delivery of the non-matching `{f: 2}` is
re-evaluated and flips `satisfied` back to false (the call counter reaching
2), contradicting the claim that a delivery after satisfaction leaves
`satisfied` true. -/
theorem C2_monotonicity_counterexample :
    (messageHandler c2Status [("f", PyValue.int 1)]).1.satisfied = true ∧
    (messageHandler (messageHandler c2Status [("f", PyValue.int 1)]).1
        [("f", PyValue.int 2)]).1.satisfied = false ∧
    (messageHandler (messageHandler c2Status [("f", PyValue.int 1)]).1
        [("f", PyValue.int 2)]).1.calls = 2 := by decide

/-- C2 (amended): the handler is not idempotent after satisfaction; every
delivery increments the call counter and, when the condition branch
evaluates without error, overwrites `satisfied` with the fresh result —
whatever the previous `satisfied` value was.  Monotonicity is provided only
by the unsubscribe on satisfaction, not by the handler itself. -/
theorem C2_handler_overwrites (st : RequirementStatus) (msg : Message)
    (b : Bool)
    (h : evaluateCondition st.requirement (st.calls + 1) msg = Except.ok b) :
    (messageHandler st msg).1.calls = st.calls + 1 ∧
    (messageHandler st msg).1.satisfied = b := by
  have hr : ({ st with calls := st.calls + 1 } :
      RequirementStatus).requirement = st.requirement := rfl
  simp only [messageHandler, hr]
  rw [h]
  cases b <;> simp

/-- C2 (witness): on a fresh `EQUALS` status, delivering the non-matching
payload `{f: 2}` leaves `satisfied` false with one call counted. -/
theorem C2_handler_overwrites_witness :
    (messageHandler c2Status [("f", PyValue.int 2)]).1.calls = 1 ∧
    (messageHandler c2Status [("f", PyValue.int 2)]).1.satisfied = false :=
  C2_handler_overwrites c2Status [("f", PyValue.int 2)] false rfl

/-- C3 (code bug): the `status` list is a class attribute shared by every
`ROSBridgeClient` instance: any instance's `self.status` read yields the one
class-level list, and calling `add_requirement` on instance 0 changes what a
distinct instance 1 observes as its own collection — the collections of
distinct connections are the same list, not disjoint ones. -/
theorem C3_shared_status :
    (∀ (w : ROSBridgeClassState) (i j : Nat), statusOf w i = statusOf w j) ∧
    statusOf (addRequirement c3World 0 c3Req) 1 ≠ statusOf c3World 1 :=
  ⟨fun _ _ _ => rfl, by decide⟩

/-- C5 (theorem): each iteration of the monitoring loop decides in the fixed
priority order timeout, breakpoint, full satisfaction: past the timeout the
outcome is `TIMED_OUT` whatever the aggregate statuses say; within the
timeout a satisfied breakpoint yields `BREAKPOINT_HIT` even when all
requirements are also satisfied; and otherwise the iteration terminates with
`ALL_SATISFIED` exactly when `Plugin.requirements_satisfied` holds. -/
theorem C5_loop_priority (p t : ℚ) (clients : List (List RequirementStatus)) :
    (p > t → loopIteration p t clients = some SimulationOutcome.TIMED_OUT) ∧
    (p ≤ t → pluginBreakpointSatisfied clients = true →
      loopIteration p t clients = some SimulationOutcome.BREAKPOINT_HIT) ∧
    (p ≤ t → pluginBreakpointSatisfied clients = false →
      (loopIteration p t clients = some SimulationOutcome.ALL_SATISFIED ↔
        pluginRequirementsSatisfied clients = true)) := by
  refine ⟨?_, ?_, ?_⟩
  · intro h
    simp [loopIteration, h]
  · intro h hb
    have hn : ¬ p > t := not_lt.mpr h
    simp [loopIteration, hn, hb]
  · intro h hb
    have hn : ¬ p > t := not_lt.mpr h
    cases hr : pluginRequirementsSatisfied clients <;>
      simp [loopIteration, hn, hb, hr]

/-- C5 (witness): with a satisfied breakpoint present, elapsed time past the
timeout still yields `TIMED_OUT`; within the timeout the same state yields
`BREAKPOINT_HIT`; and with only an ordinary satisfied requirement the
iteration ends in `ALL_SATISFIED` exactly when the aggregate check holds. -/
theorem C5_loop_priority_witness :
    loopIteration 2 1 c5BpClients = some SimulationOutcome.TIMED_OUT ∧
    loopIteration 0 1 c5BpClients = some SimulationOutcome.BREAKPOINT_HIT ∧
    (loopIteration 0 1 c5AllClients = some SimulationOutcome.ALL_SATISFIED ↔
      pluginRequirementsSatisfied c5AllClients = true) :=
  ⟨(C5_loop_priority 2 1 c5BpClients).1 (by norm_num),
   (C5_loop_priority 0 1 c5BpClients).2.1 (by norm_num) (by decide),
   (C5_loop_priority 0 1 c5AllClients).2.2 (by norm_num) (by decide)⟩

/-- C6 (counterexample): the handler does not absorb evaluation errors: on a
payload missing the requirement's field the `KeyError` escapes the handler
(after the call-count increment, with `satisfied` untouched), and on a
payload whose field value cannot be ordered against the declared value the
`TypeError` escapes likewise — contradicting the claim that no exception
escapes the handler. -/
theorem C6_errors_escape_counterexample :
    messageHandler c6Status [] =
      ({ c6Status with calls := 1 }, some PyError.keyError) ∧
    messageHandler c6GreaterStatus [("f", PyValue.str "fast")] =
      ({ c6GreaterStatus with calls := 1 }, some PyError.typeError) := by
  decide

/-- C6 (amended): when the condition branch raises (missing field or
incomparable values), the handler leaves behind exactly the call-count
increment — `satisfied` and the subscription are unchanged — and the
exception escapes the handler instead of being absorbed. -/
theorem C6_error_behaviour (st : RequirementStatus) (msg : Message)
    (e : PyError)
    (h : evaluateCondition st.requirement (st.calls + 1) msg =
      Except.error e) :
    messageHandler st msg = ({ st with calls := st.calls + 1 }, some e) := by
  have hr : ({ st with calls := st.calls + 1 } :
      RequirementStatus).requirement = st.requirement := rfl
  simp only [messageHandler, hr]
  rw [h]

/-- C6 (witness): the `GREATER` requirement against a string payload raises
`TypeError` out of the handler with the call counted. -/
theorem C6_error_behaviour_witness :
    messageHandler c6GreaterStatus [("f", PyValue.str "fast")] =
      ({ c6GreaterStatus with calls := 1 }, some PyError.typeError) :=
  C6_error_behaviour c6GreaterStatus [("f", PyValue.str "fast")]
    PyError.typeError rfl

/-- Helper: when no removal fails the removal loop removes every container
in order and raises nothing. -/
theorem removeContainers_ok (rf : String → Bool) (l : List String)
    (h : ∀ p ∈ l, rf p = false) :
    removeContainers rf l = (l.map TeardownEvent.removedContainer, none) := by
  induction l with
  | nil => rfl
  | cons p rest ih =>
      have hp : rf p = false := h p (by simp)
      simp [removeContainers, hp,
        ih (fun q hq => h q (List.mem_cons_of_mem p hq))]

/-- Helper: the removal loop never produces the network-removal event. -/
theorem removeContainers_no_network (rf : String → Bool) (l : List String) :
    TeardownEvent.removedNetwork ∉ (removeContainers rf l).1 := by
  induction l with
  | nil => simp [removeContainers]
  | cons p rest ih =>
      cases hp : rf p with
      | true => simp [removeContainers, hp]
      | false => simp [removeContainers, hp, ih]

/-- Helper: a start failure anywhere in the list makes the bring-up loop
raise. -/
theorem bringupNodes_fails (sf : String → Bool) (l : List String)
    (h : ∃ p ∈ l, sf p = true) :
    (bringupNodes sf l).2 = some PyError.dockerError := by
  induction l with
  | nil => simp at h
  | cons p rest ih =>
      cases hp : sf p with
      | true => simp [bringupNodes, hp]
      | false =>
          obtain ⟨q, hq, hsq⟩ := h
          rcases List.mem_cons.mp hq with rfl | hq2
          · rw [hp] at hsq
            exact absurd hsq (by simp)
          · simp [bringupNodes, hp, ih ⟨q, hq2, hsq⟩]

/-- Helper: with no start failure the bring-up loop raises nothing. -/
theorem bringupNodes_ok (sf : String → Bool) (l : List String)
    (h : ∀ p ∈ l, sf p = false) :
    (bringupNodes sf l).2 = none := by
  induction l with
  | nil => rfl
  | cons p rest ih =>
      have hp : sf p = false := h p (by simp)
      simp [bringupNodes, hp,
        ih (fun q hq => h q (List.mem_cons_of_mem p hq))]

/-- C7 (counterexample): teardown is not best-effort and not always reached.
With containers `a`, `b`, `c` and a start failure on `b`, the `master` and
`a` containers were started, yet the run raises with no removal event at all
— neither container removal nor network removal is attempted.  And during
teardown of `master` and `a`, a removal failure on `master` aborts the loop:
`a` is never attempted and the network is never removed. -/
theorem C7_teardown_counterexample :
    (bringupNodes c7StartFailsB ["master", "a", "b", "c"]).1 =
      ["master", "a"] ∧
    runTeardown c7StartFailsB c7NoFail ["a", "b", "c"] =
      ([], some PyError.dockerError) ∧
    destroySimulationInfrastructure c7RemoveFailsMaster ["master", "a"] =
      ([], some PyError.dockerError) := by
  decide

/-- C7 (amended): the error-free paths behave as claimed — with no removal
failure every container is removed and the network is removed last, and with
no start failure teardown is always reached — but error paths are not
exception-safe: an escaped removal error means the network removal was never
attempted (and later containers were skipped), and any start failure aborts
`run` with no teardown at all. -/
theorem C7_teardown_behaviour (sf rf : String → Bool)
    (packages : List String) :
    ((∀ p ∈ "master" :: packages, rf p = false) →
      destroySimulationInfrastructure rf ("master" :: packages) =
        (("master" :: packages).map TeardownEvent.removedContainer ++
          [TeardownEvent.removedNetwork], none)) ∧
    ((destroySimulationInfrastructure rf ("master" :: packages)).2 ≠ none →
      TeardownEvent.removedNetwork ∉
        (destroySimulationInfrastructure rf ("master" :: packages)).1) ∧
    ((∃ p ∈ "master" :: packages, sf p = true) →
      runTeardown sf rf packages = ([], some PyError.dockerError)) ∧
    ((∀ p ∈ "master" :: packages, sf p = false) →
      runTeardown sf rf packages =
        destroySimulationInfrastructure rf ("master" :: packages)) := by
  refine ⟨?_, ?_, ?_, ?_⟩
  · intro h
    simp [destroySimulationInfrastructure, removeContainers_ok rf _ h]
  · intro h
    cases h2 : (removeContainers rf ("master" :: packages)).2 with
    | none => simp [destroySimulationInfrastructure, h2] at h
    | some e =>
        simp [destroySimulationInfrastructure, h2]
        exact removeContainers_no_network rf _
  · intro h
    simp [runTeardown, bringupNodes_fails sf _ h]
  · intro h
    simp [runTeardown, bringupNodes_ok sf _ h]

/-- C7 (witness): concrete instances of the four behaviours: a clean
teardown removes `master` and `a` then the network; a removal failure on
`master` keeps the network; a start failure on `b` makes the run raise with
no teardown; a clean start reaches teardown. -/
theorem C7_teardown_behaviour_witness :
    destroySimulationInfrastructure c7NoFail ["master", "a"] =
      ([TeardownEvent.removedContainer "master",
        TeardownEvent.removedContainer "a",
        TeardownEvent.removedNetwork], none) ∧
    TeardownEvent.removedNetwork ∉
      (destroySimulationInfrastructure c7RemoveFailsMaster ["master", "a"]).1 ∧
    runTeardown c7StartFailsB c7NoFail ["b"] =
      ([], some PyError.dockerError) ∧
    runTeardown c7NoFail c7NoFail ["a"] =
      destroySimulationInfrastructure c7NoFail ["master", "a"] :=
  ⟨(C7_teardown_behaviour c7NoFail c7NoFail ["a"]).1 (by decide),
   (C7_teardown_behaviour c7NoFail c7RemoveFailsMaster ["a"]).2.1 (by decide),
   (C7_teardown_behaviour c7StartFailsB c7NoFail ["b"]).2.2.1 (by decide),
   (C7_teardown_behaviour c7NoFail c7NoFail ["a"]).2.2.2 (by decide)⟩

/-- C8 (counterexample): a `SimulationRequirement` with condition `RECEIVED`
and a field present is accepted by the validator, so the claimed invariant
`field present iff condition distinct from RECEIVED` fails on a successfully
constructed requirement. -/
theorem C8_invariant_counterexample :
    mkSimulationRequirement ConditionEnum.RECEIVED "std_msgs/Int32" "/count"
      (PyValue.int 3) false (some "x") = Except.ok c8Req ∧
    ¬ ((c8Req.field ≠ none) ↔
        (c8Req.condition ≠ ConditionEnum.RECEIVED)) :=
  ⟨rfl, by decide⟩

/-- C8 (amended): construction without a field fails with the configuration
error for every condition other than `RECEIVED` and succeeds with a field
present for every condition; the invariant that survives construction is
one-directional: a successfully constructed requirement whose condition is
not `RECEIVED` always has a field. -/
theorem C8_validation (cond : ConditionEnum) (m t : String) (v : PyValue)
    (bp : Bool) :
    (cond ≠ ConditionEnum.RECEIVED →
      mkSimulationRequirement cond m t v bp none =
        Except.error PyError.rigelError) ∧
    (∀ f : String, mkSimulationRequirement cond m t v bp (some f) =
      Except.ok { condition := cond, message := m, topic := t, value := v,
                  breakpoint := bp, field := some f }) ∧
    (∀ fld r, mkSimulationRequirement cond m t v bp fld = Except.ok r →
      cond ≠ ConditionEnum.RECEIVED → r.field ≠ none) := by
  refine ⟨?_, ?_, ?_⟩
  · intro h
    cases cond <;> first | rfl | exact absurd rfl h
  · intro f
    simp [mkSimulationRequirement, validateField]
  · intro fld r hok hc
    cases fld with
    | some f =>
        simp [mkSimulationRequirement, validateField] at hok
        simp [← hok]
    | none =>
        cases cond <;> simp [mkSimulationRequirement, validateField] at hok
        exact absurd rfl hc

/-- C8 (witness): omitting the field under `EQUALS` is rejected, providing a
field under `LESSER` is accepted, and the accepted requirement's field is
present. -/
theorem C8_validation_witness :
    mkSimulationRequirement ConditionEnum.EQUALS "m" "t" (PyValue.int 1)
      false none = Except.error PyError.rigelError ∧
    mkSimulationRequirement ConditionEnum.LESSER "m" "t" (PyValue.int 1)
      false (some "f") =
      Except.ok { condition := ConditionEnum.LESSER, message := "m",
                  topic := "t", value := PyValue.int 1, breakpoint := false,
                  field := some "f" } ∧
    ({ condition := ConditionEnum.LESSER, message := "m", topic := "t",
       value := PyValue.int 1, breakpoint := false, field := some "f" } :
      SimulationRequirement).field ≠ none :=
  ⟨(C8_validation ConditionEnum.EQUALS "m" "t" (PyValue.int 1) false).1
      (by decide),
   (C8_validation ConditionEnum.LESSER "m" "t" (PyValue.int 1) false).2.1 "f",
   (C8_validation ConditionEnum.LESSER "m" "t" (PyValue.int 1) false).2.2
      (some "f") _
      ((C8_validation ConditionEnum.LESSER "m" "t" (PyValue.int 1)
          false).2.1 "f")
      (by decide)⟩

/-- Helper: the source rendering and the amended spec rendering of one
status agree. -/
theorem describe_eq_spec (s : RequirementStatus) :
    describeStatus s = specDescribe s := rfl

/-- Helper: the per-client walk computes the filter-and-map split of its
status list, in order. -/
theorem clientGetRequirements_eq (status : List RequirementStatus) :
    clientGetRequirements status =
      ((status.filter (fun s => !s.requirement.breakpoint)).map specDescribe,
       (status.filter (fun s => s.requirement.breakpoint)).map specDescribe) := by
  induction status with
  | nil => rfl
  | cons s rest ih =>
      cases hb : s.requirement.breakpoint <;>
        simp [clientGetRequirements, hb, ih, describe_eq_spec]

/-- Helper: the plugin-level concatenation computes the split of the
flattened status lists, preserving registration order across connections. -/
theorem pluginGetRequirements_eq (clients : List (List RequirementStatus)) :
    pluginGetRequirements clients = specRequirementLists clients := by
  induction clients with
  | nil => rfl
  | cons c rest ih =>
      simp [pluginGetRequirements, clientGetRequirements_eq, ih,
        specRequirementLists, List.filter_append, List.map_append]

/-- C10 (counterexample): the with-field rendering is not selected whenever
the requirement has a field: a requirement whose field is the empty string
has a field, but the Python truthiness guard renders it in the no-field form
`"t (m) - EQUALS 1"`, not the claimed `"t (m) -  EQUALS 1"` with the field
inserted. -/
theorem C10_report_counterexample :
    describeStatus c10Status ≠ claimDescribe c10Status ∧
    (describeStatus c10Status).2 = "t (m) - EQUALS 1" ∧
    c10Status.requirement.field = some "" := by decide

/-- C10 (amended): the final report splits the statuses of all connections,
in registration order, into the non-breakpoint sequence and the breakpoint
sequence; each entry pairs the satisfied flag with the description rendered
with the field exactly when the field is present and non-empty; and the
printed report consists of the `REQUIREMENTS:` and `BREAKPOINTS:` sections,
each line tagged SUCCESS or FAILURE by the satisfied flag, each section
omitted entirely when its list is empty. -/
theorem C10_report_refinement (clients : List (List RequirementStatus)) :
    pluginGetRequirements clients = specRequirementLists clients ∧
    pluginReport clients = specReport clients := by
  refine ⟨pluginGetRequirements_eq clients, ?_⟩
  simp [pluginReport, specReport, pluginGetRequirements_eq,
    List.isEmpty_iff]

end RigelSim
